import Mathlib

/-!
A shallow embedding of `tiled/adapters/hdf5.py`: the `HDF5Adapter` tree
adapter over an HDF5-like container, the `HDF5DatasetAdapter` leaf wrapper,
and the attribute-carrying array subclass `ArrayWithAttrs`.

Python exceptions are modelled with `Except PyError`; h5py/numpy/dask values
are modelled by explicit inductive types carrying exactly the observations the
adapter code makes of them.
-/

set_option autoImplicit false

namespace Tiled

/-- A scalar payload element stored in a dataset. -/
inductive HVal where
  | int : Int → HVal
  | str : String → HVal
  deriving DecidableEq, Repr

/-- An attribute value in a node's native attribute store.  `bytes s` is a raw
byte sequence encoding the text `s` (Python `bytes`); `text s` is a Python
`str`; `int` any other scalar. -/
inductive AttrVal where
  | bytes : String → AttrVal
  | text : String → AttrVal
  | int : Int → AttrVal
  deriving DecidableEq, Repr

/-- The Python exceptions the adapter code can raise. -/
inductive PyError where
  | KeyError : String → PyError
  | ValueError : String → PyError
  | RuntimeError : String → PyError
  | NotImplementedError : PyError
  | TypeError : String → PyError
  | IndexError : String → PyError
  | AttributeError : String → PyError
  deriving DecidableEq, Repr

/-- Python `bytes.decode()` as used in `HDF5Adapter.metadata`: a `bytes`
value becomes the `str` it encodes; `isinstance(v, bytes)` is false for the
other constructors, which pass through unchanged. -/
def decodeAttr : AttrVal → AttrVal
  | .bytes s => .text s
  | v => v

/-- Apply `decodeAttr` to every value of an attribute map (the
`for k, v in list(d.items()): if isinstance(v, bytes): d[k] = v.decode()`
loop). -/
def decodeBytes (m : List (String × AttrVal)) : List (String × AttrVal) :=
  m.map (fun kv => (kv.1, decodeAttr kv.2))

/-- An `h5py.Dataset`, carrying the observations `HDF5Adapter.__getitem__`
makes of it:

* `dtypeIsObject` — whether `value.dtype == numpy.dtype("O")`;
* `strDtypeInfo` — the result of `h5py.check_string_dtype(value.dtype)`:
  `none` when the dtype is not an HDF5 string dtype (h5py returns `None`),
  `some len?` when it is, with `len? = none` for a variable-length string and
  `some n` for a fixed length `n`;
* `data` — the full extent of the dataset, as read eagerly by
  `value.file[...][...][()]` (so `value.size = data.length`);
* `attrs` — the dataset's native attribute store `value.attrs`. -/
structure HDataset where
  dtypeIsObject : Bool
  strDtypeInfo : Option (Option Nat)
  data : List HVal
  attrs : List (String × AttrVal)
  deriving DecidableEq, Repr

/-- `value.size`: the number of elements of the dataset. -/
def HDataset.size (d : HDataset) : Nat :=
  d.data.length

/-- A child of an HDF5 group: either a sub-group (`h5py.Group`, with its name,
children in native enumeration order, and attribute store) or a dataset. -/
inductive HEntity where
  | group : String → List (String × HEntity) → List (String × AttrVal) → HEntity
  | dataset : HDataset → HEntity

/-- The access-policy capability.  It exposes a single predicate,
`check_compatibility`, whose result against this adapter type is fixed, so it
is carried as a `Bool`. -/
structure AccessPolicy where
  check_compatibility : Bool
  deriving DecidableEq, Repr

/-- An opaque authentication identity token, compared only for
presence/absence. -/
abbrev Identity := String

/-- `HDF5Adapter`: wraps one HDF5 group.  The wrapped `self._node` group is
carried as its three components (`name`, children, attribute store), together
with the optional access policy and the optional authenticated identity. -/
structure HDF5Adapter where
  nodeName : String
  nodeChildren : List (String × HEntity)
  nodeAttrs : List (String × AttrVal)
  _access_policy : Option AccessPolicy := none
  _authenticated_identity : Option Identity := none

/-- `HDF5Adapter.__init__`: raises `ValueError` when an access policy is
supplied and its compatibility check against this adapter fails; otherwise
stores the node, the policy and the identity. -/
def HDF5Adapter.init (name : String) (children : List (String × HEntity))
    (attrs : List (String × AttrVal)) (access_policy : Option AccessPolicy)
    (authenticated_identity : Option Identity) : Except PyError HDF5Adapter :=
  if access_policy.isSome && !((access_policy.map AccessPolicy.check_compatibility).getD true) then
    .error (.ValueError "Access policy is not compatible with this Tree.")
  else
    .ok { nodeName := name, nodeChildren := children, nodeAttrs := attrs,
          _access_policy := access_policy,
          _authenticated_identity := authenticated_identity }

/-- A `dask.array` produced by `dask.array.from_array`: a lazily-evaluated
chunked view whose full extent is `source`. -/
structure DaskArray where
  source : List HVal
  deriving DecidableEq, Repr

/-- Anything `HDF5DatasetAdapter.__init__` consumes: it reads `dataset.attrs`
and hands `dataset` to `dask.array.from_array`, so the model keeps the
dataset's element contents and its attribute map. -/
structure DatasetLike where
  data : List HVal
  attrs : List (String × AttrVal)
  deriving DecidableEq, Repr

def HDataset.toDatasetLike (d : HDataset) : DatasetLike :=
  { data := d.data, attrs := d.attrs }

/-- Modelled from the spec: `ArrayAdapter` (file `tiled/adapters/array.py`,
the base class of `HDF5DatasetAdapter`, absent from `src/`).  Per spec section
4.2 it wraps a resolved leaf as a lazily-evaluated chunked array plus a
metadata map snapshotted from the leaf's attribute store. -/
structure ArrayAdapter where
  _array : DaskArray
  _metadata : List (String × AttrVal)
  deriving DecidableEq, Repr

/-- Modelled from the spec: the metadata surfaced by a `LeafAdapter`.  Per
spec section 3, metadata on TreeNode and LeafAdapter is surfaced with "any
attribute value encoded as raw byte sequences ... decoded into text", as a
read-only view. -/
def ArrayAdapter.metadata (a : ArrayAdapter) : List (String × AttrVal) :=
  decodeBytes a._metadata

/-- `HDF5DatasetAdapter.__init__`: delegates to
`ArrayAdapter.__init__(dask.array.from_array(dataset), metadata=dataset.attrs)`. -/
def HDF5DatasetAdapter (dataset : DatasetLike) : ArrayAdapter :=
  { _array := ⟨dataset.data⟩, _metadata := dataset.attrs }

/-- `ArrayWithAttrs`: a `numpy.ndarray` subclass carrying an `attrs` mapping
in its instance `__dict__`. -/
structure ArrayWithAttrs where
  data : List HVal
  attrs : List (String × AttrVal)
  deriving DecidableEq, Repr

/-- `ArrayWithAttrs.__new__` composed with `__array_finalize__`: viewing a
plain array as `ArrayWithAttrs` installs the default attributes
`{"attrs": {}}`. -/
def ArrayWithAttrs.new (input_array : List HVal) : ArrayWithAttrs :=
  { data := input_array, attrs := [] }

def ArrayWithAttrs.toDatasetLike (a : ArrayWithAttrs) : DatasetLike :=
  { data := a.data, attrs := a.attrs }

/-- The `method` argument of `__array_ufunc__`. -/
inductive UfuncMethod where
  | reduce
  | accumulate
  | reduceat
  | outer
  | at
  | call
  deriving DecidableEq, Repr

/-- A numpy ufunc, as consulted by `__array_ufunc__`: one bare-buffer kernel
per method (`ufunc.reduce`, `ufunc.accumulate`, `ufunc.reduceat`,
`ufunc.outer`, `ufunc.at`, `ufunc.__call__`). -/
structure Ufunc where
  callFn : List (List HVal) → List HVal
  reduceFn : List (List HVal) → List HVal
  accumulateFn : List (List HVal) → List HVal
  reduceatFn : List (List HVal) → List HVal
  outerFn : List (List HVal) → List HVal
  atFn : List (List HVal) → List HVal

/-- `ArrayWithAttrs.__array_ufunc__`: select the kernel for `method`, strip
each input to a bare buffer (`i.view(numpy.ndarray)`), apply the kernel, view
the raw result back as an `ArrayWithAttrs` (`__array_finalize__` gives it
empty attrs), then overwrite its `__dict__` with `self.__dict__` to carry the
receiver's attributes forward. -/
def ArrayWithAttrs.array_ufunc (self : ArrayWithAttrs) (u : Ufunc)
    (method : UfuncMethod) (inputs : List ArrayWithAttrs) : ArrayWithAttrs :=
  let f : List (List HVal) → List HVal :=
    match method with
    | .reduce => u.reduceFn
    | .accumulate => u.accumulateFn
    | .reduceat => u.reduceatFn
    | .outer => u.outerFn
    | .at => u.atFn
    | .call => u.callFn
  let output := ArrayWithAttrs.new (f (inputs.map ArrayWithAttrs.data))
  { output with attrs := self.attrs }

/-- The result of resolving one child: a sub-tree or a leaf. -/
inductive ChildAdapter where
  | tree : HDF5Adapter → ChildAdapter
  | leaf : ArrayAdapter → ChildAdapter

/-- `HDF5Adapter.__getitem__`.  `self._node[key]` raises `KeyError` for a
missing child.  A group child is wrapped in a fresh `HDF5Adapter` (no policy,
no identity).  A dataset child of object dtype takes the fallback path: after
the warning, `check_str_dtype.length` raises `AttributeError` when
`h5py.check_string_dtype` returned `None`; a variable-length string dataset of
size 1 is eagerly read and repackaged; every other object-dtype dataset is
served as an empty placeholder.  A dataset of any other dtype is wrapped
directly. -/
def HDF5Adapter.getitem (self : HDF5Adapter) (key : String) :
    Except PyError ChildAdapter :=
  match self.nodeChildren.lookup key with
  | none => .error (.KeyError key)
  | some (.group name children attrs) =>
      (HDF5Adapter.init name children attrs none none).map ChildAdapter.tree
  | some (.dataset d) =>
      if d.dtypeIsObject then
        -- warnings.warn(...): no effect on the returned value.
        match d.strDtypeInfo with
        | none => .error (.AttributeError "NoneType object has no attribute length")
        | some len? =>
            -- dataset_names = value.file[self._node.name + "/" + key][...][()]
            let dataset_names := d.data
            if len?.isNone && d.size == 1 then
              .ok (.leaf (HDF5DatasetAdapter (ArrayWithAttrs.new dataset_names).toDatasetLike))
            else
              .ok (.leaf (HDF5DatasetAdapter (ArrayWithAttrs.new []).toDatasetLike))
      else
        .ok (.leaf (HDF5DatasetAdapter d.toDatasetLike))

/-- `HDF5Adapter.__iter__`: `yield from self._node` enumerates the child
names in native order. -/
def HDF5Adapter.keys (self : HDF5Adapter) : List String :=
  self.nodeChildren.map Prod.fst

/-- `HDF5Adapter.__len__`. -/
def HDF5Adapter.length (self : HDF5Adapter) : Nat :=
  self.nodeChildren.length

/-- `collections.abc.Mapping.__contains__` (the stdlib mixin the class
inherits): `try: self[key]; except KeyError: return False; return True` —
a `KeyError` becomes `False`, any other exception propagates. -/
def HDF5Adapter.contains (self : HDF5Adapter) (key : String) :
    Except PyError Bool :=
  match self.getitem key with
  | .error (.KeyError _) => .ok false
  | .error e => .error e
  | .ok _ => .ok true

/-- `HDF5Adapter.metadata`: a fresh dict of the node's attribute store with
byte values decoded to text, exposed as a read-only `DictView`. -/
def HDF5Adapter.metadata (self : HDF5Adapter) : List (String × AttrVal) :=
  decodeBytes self.nodeAttrs

/-- `HDF5Adapter.authenticated_as`: `RuntimeError` when an identity is already
bound; `NotImplementedError` when an access policy is set; otherwise a new
adapter over the same node with the identity attached, built through
`type(self)(...)`, i.e. through `__init__`. -/
def HDF5Adapter.authenticated_as (self : HDF5Adapter) (identity : Identity) :
    Except PyError HDF5Adapter :=
  if self._authenticated_identity.isSome then
    .error (.RuntimeError "Already authenticated")
  else if self._access_policy.isSome then
    .error .NotImplementedError
  else
    HDF5Adapter.init self.nodeName self.nodeChildren self.nodeAttrs
      self._access_policy (some identity)

/-! ### Python sequence protocol, as used by the indexer methods

`_keys_slice`, `_items_slice` and `_item_by_index` build a `list`, possibly
replace it by `reversed(...)` — which in Python is a `list_reverseiterator`,
an iterator without `__getitem__` — and then subscript the result.  `PySeq`
records which of the two kinds of value is in hand, and subscripting it
follows CPython: slicing or indexing a `list_reverseiterator` raises
`TypeError: object is not subscriptable`. -/

/-- A Python value that is either a `list` or the `list_reverseiterator`
produced by `reversed` on a list holding `xs`. -/
inductive PySeq (α : Type) where
  | list : List α → PySeq α
  | reverseIterator : List α → PySeq α

/-- Python list slicing `xs[start:stop]` for non-negative bounds: the
elements at indices `start ≤ i < stop`, clamped to the list. -/
def pySlice {α : Type} (xs : List α) (start stop : Nat) : List α :=
  (xs.drop start).take (stop - start)

/-- Subscripting with a slice, `s[start:stop]`: defined on a `list`, raises
`TypeError` on a `list_reverseiterator`. -/
def PySeq.getslice {α : Type} : PySeq α → Nat → Nat → Except PyError (List α)
  | .list xs, start, stop => .ok (pySlice xs start stop)
  | .reverseIterator _, _, _ =>
      .error (.TypeError "list_reverseiterator object is not subscriptable")

/-- Subscripting with an index, `s[i]` for non-negative `i`: defined on a
`list` (raising `IndexError` out of bounds), raises `TypeError` on a
`list_reverseiterator`. -/
def PySeq.getelem {α : Type} : PySeq α → Nat → Except PyError α
  | .list xs, i =>
      match xs[i]? with
      | some v => .ok v
      | none => .error (.IndexError "list index out of range")
  | .reverseIterator _, _ =>
      .error (.TypeError "list_reverseiterator object is not subscriptable")

/-- `HDF5Adapter._keys_slice`: `keys = list(self._node)`; if the direction is
negative, `keys = reversed(keys)`; then `return keys[start:stop]`. -/
def HDF5Adapter._keys_slice (self : HDF5Adapter) (start stop : Nat)
    (direction : Int) : Except PyError (List String) :=
  let keys := self.keys
  let seq : PySeq String :=
    if direction < 0 then .reverseIterator keys else .list keys
  seq.getslice start stop

/-- `HDF5Adapter._items_slice`: `items = [(key, self[key]) for key in
list(self)]` (resolving every child, any exception propagating); if the
direction is negative, `items = reversed(items)`; then
`return items[start:stop]`. -/
def HDF5Adapter._items_slice (self : HDF5Adapter) (start stop : Nat)
    (direction : Int) : Except PyError (List (String × ChildAdapter)) := do
  let items ← self.keys.mapM (fun key => do
    let child ← self.getitem key
    pure (key, child))
  let seq : PySeq (String × ChildAdapter) :=
    if direction < 0 then .reverseIterator items else .list items
  seq.getslice start stop

/-- `HDF5Adapter._item_by_index`: `keys = list(self)`; if the direction is
negative, `keys = reversed(keys)`; then `return keys[index]`. -/
def HDF5Adapter._item_by_index (self : HDF5Adapter) (index : Nat)
    (direction : Int) : Except PyError String :=
  let keys := self.keys
  let seq : PySeq String :=
    if direction < 0 then .reverseIterator keys else .list keys
  seq.getelem index

/-! ### Concrete fixtures

A sample tree holding one child of every kind the resolution algorithm
distinguishes. -/

/-- A normal fixed-width dataset (e.g. floats), with a bytes-valued and an
integer-valued attribute. -/
def floatLeaf : HDataset :=
  { dtypeIsObject := false, strDtypeInfo := none,
    data := [.int 5, .int 6], attrs := [("unit", .bytes "eV"), ("n", .int 3)] }

/-- A variable-length string dataset with three elements. -/
def vlenStrLeaf3 : HDataset :=
  { dtypeIsObject := true, strDtypeInfo := some none,
    data := [.str "a", .str "b", .str "c"], attrs := [("note", .bytes "x")] }

/-- A variable-length string dataset with exactly one element. -/
def vlenStrLeaf1 : HDataset :=
  { dtypeIsObject := true, strDtypeInfo := some none,
    data := [.str "payload"], attrs := [("note", .text "n")] }

/-- An object-dtype dataset that is not a string dtype (e.g. variable-length
integer sequences): `h5py.check_string_dtype` returns `None` for it. -/
def vlenIntLeaf2 : HDataset :=
  { dtypeIsObject := true, strDtypeInfo := none,
    data := [.int 1, .int 2], attrs := [] }

/-- An object-dtype dataset whose string-dtype info reports a fixed length. -/
def fixedStrLeaf2 : HDataset :=
  { dtypeIsObject := true, strDtypeInfo := some (some 10),
    data := [.str "aa", .str "bb"], attrs := [("unit", .bytes "eV")] }

/-- An object-dtype dataset with exactly one element that is not a string
dtype (e.g. a single variable-length integer sequence):
`h5py.check_string_dtype` returns `None` for it. -/
def vlenIntLeaf1 : HDataset :=
  { dtypeIsObject := true, strDtypeInfo := none,
    data := [.int 7], attrs := [] }

/-- An object-dtype dataset with exactly one element whose string-dtype info
reports a fixed length. -/
def fixedStrLeaf1 : HDataset :=
  { dtypeIsObject := true, strDtypeInfo := some (some 4),
    data := [.str "aa"], attrs := [] }

/-- A root group holding the two single-element object-dtype datasets. -/
def singleNode : HDF5Adapter :=
  { nodeName := "/",
    nodeChildren :=
      [("vlenint1", .dataset vlenIntLeaf1),
       ("fixed1", .dataset fixedStrLeaf1)],
    nodeAttrs := [] }

/-- A sample root group with one sub-group child and one dataset child of
each kind. -/
def sampleNode : HDF5Adapter :=
  { nodeName := "/",
    nodeChildren :=
      [("g", .group "/g" [("d", .dataset floatLeaf)] [("title", .bytes "grp")]),
       ("normal", .dataset floatLeaf),
       ("vlen3", .dataset vlenStrLeaf3),
       ("vlen1", .dataset vlenStrLeaf1),
       ("vlenint", .dataset vlenIntLeaf2),
       ("fixed", .dataset fixedStrLeaf2)],
    nodeAttrs := [("root", .bytes "r")] }

example : sampleNode.getitem "nope" = .error (.KeyError "nope") := rfl

example : sampleNode.getitem "vlenint" =
    .error (.AttributeError "NoneType object has no attribute length") := rfl

example : sampleNode.getitem "vlen1" =
    .ok (.leaf { _array := ⟨[.str "payload"]⟩, _metadata := [] }) := rfl

example : sampleNode.getitem "vlen3" =
    .ok (.leaf { _array := ⟨[]⟩, _metadata := [] }) := rfl

example : sampleNode.getitem "fixed" =
    .ok (.leaf { _array := ⟨[]⟩, _metadata := [] }) := rfl

example : sampleNode.getitem "normal" =
    .ok (.leaf { _array := ⟨[.int 5, .int 6]⟩,
                 _metadata := [("unit", .bytes "eV"), ("n", .int 3)] }) := rfl

example : sampleNode._keys_slice 0 6 (-1) =
    .error (.TypeError "list_reverseiterator object is not subscriptable") := rfl

/-! ### Claim theorems -/

/-- **C6.** Every derived-array operation dispatched through
`ArrayWithAttrs.__array_ufunc__` — elementwise call, reduce, accumulate,
reduceat, outer, at — returns an `ArrayWithAttrs` carrying the receiver's
metadata map unchanged, and constructing an `ArrayWithAttrs` from a plain
buffer yields empty metadata. -/
theorem arrayWithAttrs_metadata_preservation :
    (∀ (a : ArrayWithAttrs) (u : Ufunc) (method : UfuncMethod)
        (inputs : List ArrayWithAttrs),
        (a.array_ufunc u method inputs).attrs = a.attrs)
    ∧ (∀ buffer : List HVal, (ArrayWithAttrs.new buffer).attrs = []) :=
  ⟨fun _ _ _ _ => rfl, fun _ => rfl⟩

/-- **C9.** `HDF5Adapter.__init__` raises `ValueError` exactly when a policy
is supplied whose compatibility check fails; with a compatible policy it
succeeds and stores the policy unchanged, and with no policy it succeeds. -/
theorem init_policy_check (name : String) (children : List (String × HEntity))
    (attrs : List (String × AttrVal)) (p : AccessPolicy)
    (ident : Option Identity) :
    (p.check_compatibility = false →
        HDF5Adapter.init name children attrs (some p) ident =
          .error (.ValueError "Access policy is not compatible with this Tree."))
    ∧ (p.check_compatibility = true →
        HDF5Adapter.init name children attrs (some p) ident =
          .ok { nodeName := name, nodeChildren := children, nodeAttrs := attrs,
                _access_policy := some p, _authenticated_identity := ident })
    ∧ HDF5Adapter.init name children attrs none ident =
        .ok { nodeName := name, nodeChildren := children, nodeAttrs := attrs,
              _access_policy := none, _authenticated_identity := ident } := by
  refine ⟨fun h => ?_, fun h => ?_, rfl⟩ <;> simp [HDF5Adapter.init, h]

/-- Witness for **C9** at a concrete incompatible policy, a concrete
compatible policy, and no policy. -/
theorem init_policy_check_witness :
    HDF5Adapter.init "/" [] [] (some ⟨false⟩) none =
      .error (.ValueError "Access policy is not compatible with this Tree.")
    ∧ HDF5Adapter.init "/" [] [] (some ⟨true⟩) none =
        .ok { nodeName := "/", nodeChildren := [], nodeAttrs := [],
              _access_policy := some ⟨true⟩, _authenticated_identity := none }
    ∧ HDF5Adapter.init "/" [] [] none none =
        .ok { nodeName := "/", nodeChildren := [], nodeAttrs := [],
              _access_policy := none, _authenticated_identity := none } :=
  ⟨(init_policy_check "/" [] [] ⟨false⟩ none).1 rfl,
   (init_policy_check "/" [] [] ⟨true⟩ none).2.1 rfl,
   (init_policy_check "/" [] [] ⟨true⟩ none).2.2⟩

/-- **C7.** `authenticated_as` on an adapter with no bound identity and no
access policy returns a new adapter over the same node with the identity
attached (the original value is untouched — the operation is non-mutating by
construction in this pure model); it raises `RuntimeError` ("already
authenticated") when an identity is already bound, and `NotImplementedError`
when an access policy is set. -/
theorem authenticated_as_spec (self : HDF5Adapter) (identity : Identity) :
    (self._authenticated_identity = none → self._access_policy = none →
        self.authenticated_as identity =
          .ok { self with _authenticated_identity := some identity })
    ∧ (self._authenticated_identity.isSome = true →
        self.authenticated_as identity =
          .error (.RuntimeError "Already authenticated"))
    ∧ (self._authenticated_identity = none → self._access_policy.isSome = true →
        self.authenticated_as identity = .error .NotImplementedError) := by
  obtain ⟨name, children, attrs, pol, idn⟩ := self
  refine ⟨fun h1 h2 => ?_, fun h => ?_, fun h1 h2 => ?_⟩ <;>
    simp_all [HDF5Adapter.authenticated_as, HDF5Adapter.init]

/-- Witness for **C7**: authenticating the sample (unauthenticated,
policy-free) node succeeds and binds the identity; the resulting node refuses
a second authentication; a policy-carrying node refuses authentication. -/
theorem authenticated_as_spec_witness :
    sampleNode.authenticated_as "alice" =
      .ok { sampleNode with _authenticated_identity := some "alice" }
    ∧ ({ sampleNode with
          _authenticated_identity := some "alice" } : HDF5Adapter).authenticated_as "bob" =
        .error (.RuntimeError "Already authenticated")
    ∧ ({ sampleNode with
          _access_policy := some ⟨true⟩ } : HDF5Adapter).authenticated_as "bob" =
        .error .NotImplementedError :=
  ⟨(authenticated_as_spec sampleNode "alice").1 rfl rfl,
   (authenticated_as_spec { sampleNode with
      _authenticated_identity := some "alice" } "bob").2.1 rfl,
   (authenticated_as_spec { sampleNode with
      _access_policy := some ⟨true⟩ } "bob").2.2 rfl rfl⟩

/-- Supporting lemma: on the variable-length *string* subset of the
single-element anomalous leaves, resolution does succeed and returns a
`LeafAdapter` whose array is exactly the eagerly materialized payload (one
element) with empty surfaced metadata. -/
theorem getitem_single_element_anomalous (self : HDF5Adapter) (key : String)
    (d : HDataset) (hlook : self.nodeChildren.lookup key = some (.dataset d))
    (hobj : d.dtypeIsObject = true) (hvlen : d.strDtypeInfo = some none)
    (hsize : d.size = 1) :
    ∃ l : ArrayAdapter, self.getitem key = .ok (.leaf l)
      ∧ l._array.source = d.data ∧ l._array.source.length = 1
      ∧ l.metadata = [] := by
  refine ⟨HDF5DatasetAdapter (ArrayWithAttrs.new d.data).toDatasetLike, ?_, rfl, ?_, rfl⟩
  · simp [HDF5Adapter.getitem, hlook, hobj, hvlen, hsize]
  · simpa [HDataset.size] using hsize

/-- Concrete instance of the supporting lemma: the one-element
variable-length-string child of the sample node resolves to a one-element
leaf with empty metadata. -/
theorem getitem_single_element_anomalous_witness :
    ∃ l : Tiled.ArrayAdapter, sampleNode.getitem "vlen1" = .ok (.leaf l)
      ∧ l._array.source = vlenStrLeaf1.data ∧ l._array.source.length = 1
      ∧ l.metadata = [] :=
  getitem_single_element_anomalous sampleNode "vlen1" vlenStrLeaf1 rfl rfl rfl rfl

/-- **C5.** The claim says every variable-length/object leaf with exactly one
element resolves to a one-element array built from the eagerly materialized
payload.  That holds only for variable-length *string* dtypes.  For a
single-element object-dtype leaf that is not a string dtype,
`h5py.check_string_dtype` returns `None` and `check_str_dtype.length` raises
`AttributeError` before the size is ever consulted — contradicting the
warning's promise to repackage size-1 objects; and a single-element leaf
whose string info reports a fixed length is served the empty placeholder, not
a one-element array. -/
theorem getitem_single_element_object_raises :
    vlenIntLeaf1.dtypeIsObject = true
    ∧ vlenIntLeaf1.size = 1
    ∧ singleNode.getitem "vlenint1" =
        .error (.AttributeError "NoneType object has no attribute length")
    ∧ fixedStrLeaf1.dtypeIsObject = true
    ∧ fixedStrLeaf1.size = 1
    ∧ singleNode.getitem "fixed1" =
        .ok (.leaf { _array := ⟨[]⟩, _metadata := [] }) :=
  ⟨rfl, rfl, rfl, rfl, rfl, rfl⟩

/-- **C2, counterexample.** The claim says an object-dtype leaf whose string
info reports a fixed length is treated as normal: a lazy view of the full
extent with metadata verbatim.  At the concrete child `"fixed"` the code
instead returns the empty placeholder — a zero-element array with empty
metadata — although the leaf has two elements and a nonempty attribute
store. -/
theorem getitem_fixed_length_counterexample :
    sampleNode.getitem "fixed" = .ok (.leaf { _array := ⟨[]⟩, _metadata := [] })
    ∧ ({ _array := ⟨[]⟩, _metadata := [] } : ArrayAdapter)._array.source ≠
        fixedStrLeaf2.data
    ∧ ({ _array := ⟨[]⟩, _metadata := [] } : ArrayAdapter).metadata ≠
        decodeBytes fixedStrLeaf2.attrs :=
  ⟨rfl, by decide, by decide⟩

/-- **C2, amended.** For a leaf child of object dtype whose string-dtype info
reports a fixed (non-`None`) length, `get(key)` succeeds but serves the same
empty placeholder as the multi-element anomalous case — a zero-element array
with empty metadata; only the single-element eager repackaging is skipped. -/
theorem getitem_fixed_length_placeholder (self : HDF5Adapter) (key : String)
    (d : HDataset) (n : Nat)
    (hlook : self.nodeChildren.lookup key = some (.dataset d))
    (hobj : d.dtypeIsObject = true) (hfix : d.strDtypeInfo = some (some n)) :
    self.getitem key = .ok (.leaf { _array := ⟨[]⟩, _metadata := [] }) := by
  simp [HDF5Adapter.getitem, hlook, hobj, hfix, HDF5DatasetAdapter,
    ArrayWithAttrs.new, ArrayWithAttrs.toDatasetLike]

/-- Witness for **C2 (amended)** at the concrete fixed-length-string child of
the sample node. -/
theorem getitem_fixed_length_placeholder_witness :
    sampleNode.getitem "fixed" =
      .ok (.leaf { _array := ⟨[]⟩, _metadata := [] }) :=
  getitem_fixed_length_placeholder sampleNode "fixed" fixedStrLeaf2 10 rfl rfl rfl

/-- **C8.** Child resolution: an existing sub-group child resolves to a
`TreeNode` (never a `LeafAdapter`), fresh and unauthenticated; an existing
dataset child of normal (non-object) dtype resolves to a `LeafAdapter` whose
surfaced metadata is the leaf's native attribute map with byte values decoded
to text; a name that is not a child raises `KeyError`. -/
theorem getitem_resolution_spec (self : HDF5Adapter) (key : String) :
    (∀ (name : String) (children : List (String × HEntity))
        (attrs : List (String × AttrVal)),
        self.nodeChildren.lookup key = some (.group name children attrs) →
        self.getitem key =
          .ok (.tree { nodeName := name, nodeChildren := children,
                       nodeAttrs := attrs, _access_policy := none,
                       _authenticated_identity := none }))
    ∧ (∀ d : HDataset,
        self.nodeChildren.lookup key = some (.dataset d) →
        d.dtypeIsObject = false →
        ∃ l : ArrayAdapter, self.getitem key = .ok (.leaf l)
          ∧ l._array.source = d.data ∧ l.metadata = decodeBytes d.attrs)
    ∧ (self.nodeChildren.lookup key = none →
        self.getitem key = .error (.KeyError key)) := by
  refine ⟨fun name children attrs h => ?_, fun d h hobj => ?_, fun h => ?_⟩
  · simp [HDF5Adapter.getitem, h, HDF5Adapter.init, Except.map]
  · exact ⟨HDF5DatasetAdapter d.toDatasetLike,
      by simp [HDF5Adapter.getitem, h, hobj], rfl, rfl⟩
  · simp [HDF5Adapter.getitem, h]

/-- Witness for **C8** on the sample node: the sub-group child, the normal
dataset child (whose bytes-valued attribute is surfaced decoded), and a
missing name. -/
theorem getitem_resolution_spec_witness :
    sampleNode.getitem "g" =
      .ok (.tree { nodeName := "/g",
                   nodeChildren := [("d", .dataset floatLeaf)],
                   nodeAttrs := [("title", .bytes "grp")],
                   _access_policy := none, _authenticated_identity := none })
    ∧ (∃ l : Tiled.ArrayAdapter, sampleNode.getitem "normal" = .ok (.leaf l)
        ∧ l._array.source = floatLeaf.data
        ∧ l.metadata = decodeBytes floatLeaf.attrs)
    ∧ sampleNode.getitem "nope" = .error (.KeyError "nope") :=
  ⟨(getitem_resolution_spec sampleNode "g").1 "/g"
      [("d", .dataset floatLeaf)] [("title", .bytes "grp")] rfl,
   (getitem_resolution_spec sampleNode "normal").2.1 floatLeaf rfl rfl,
   (getitem_resolution_spec sampleNode "nope").2.2 rfl⟩

/-- **C1.** The claim says `get(key)` never raises on a variable-length/object
leaf with more than one element and serves the empty placeholder.  The code
contradicts its own warning ("Tiled will serve an empty placeholder, unless
the object is of size 1"): for an object-dtype leaf that is not a string
dtype — `h5py.check_string_dtype` returns `None` — the access
`check_str_dtype.length` raises `AttributeError`.  The concrete child
`"vlenint"` is such a leaf with two elements, and resolving it raises. -/
theorem getitem_object_nonstring_raises :
    vlenIntLeaf2.dtypeIsObject = true
    ∧ 1 < vlenIntLeaf2.size
    ∧ sampleNode.getitem "vlenint" =
        .error (.AttributeError "NoneType object has no attribute length") :=
  ⟨rfl, by decide, rfl⟩

/-- **C10.** Membership goes through the same resolution path as `get`: a
missing name yields `False` (the `KeyError` is caught), a resolvable child
yields `True` — but for the object-dtype non-string child `"vlenint"` the
claim's "every existing child key returns True" fails: the `AttributeError`
escaping the resolution path propagates out of the membership test. -/
theorem contains_membership_behavior :
    sampleNode.contains "nope" = .ok false
    ∧ sampleNode.contains "normal" = .ok true
    ∧ sampleNode.contains "vlen3" = .ok true
    ∧ sampleNode.contains "vlenint" =
        .error (.AttributeError "NoneType object has no attribute length") :=
  ⟨rfl, rfl, rfl, rfl⟩

/-- **C3.** The claim says `keys_slice(0, n, -1)` equals the reverse of
`keys_slice(0, n, +1)`.  On the sample node with six children the forward
slice is the full child-name list, but the reverse-direction slice raises
`TypeError`: `reversed(keys)` is a `list_reverseiterator`, which does not
support the subscription `keys[start:stop]`. -/
theorem keys_slice_negative_direction_raises :
    sampleNode.length = 6
    ∧ sampleNode._keys_slice 0 6 1 =
        .ok ["g", "normal", "vlen3", "vlen1", "vlenint", "fixed"]
    ∧ sampleNode._keys_slice 0 6 (-1) =
        .error (.TypeError "list_reverseiterator object is not subscriptable") :=
  ⟨rfl, rfl, rfl⟩

/-- **C4.** The claim says single-key-by-index with direction −1 returns the
name at the given position of the reversed name list, and raises
`IndexOutOfRange` when out of bounds.  Forward direction behaves that way
(position 0 yields the first name, an out-of-bounds position raises
`IndexError`), but any reverse-direction access — in or out of bounds —
raises `TypeError` instead, because `reversed(keys)` is a
`list_reverseiterator` and `keys[index]` is not supported on it. -/
theorem item_by_index_negative_direction_raises :
    sampleNode._item_by_index 0 1 = .ok "g"
    ∧ sampleNode._item_by_index 99 1 =
        .error (.IndexError "list index out of range")
    ∧ sampleNode._item_by_index 0 (-1) =
        .error (.TypeError "list_reverseiterator object is not subscriptable")
    ∧ sampleNode._item_by_index 99 (-1) =
        .error (.TypeError "list_reverseiterator object is not subscriptable") :=
  ⟨rfl, rfl, rfl, rfl⟩

end Tiled
